import Mathlib

/-!
Verification of the authentication and authorization core of the
cliporaai-backend repository, as a shallow embedding in Lean 4.

Time values are modelled as integers (seconds since an arbitrary epoch),
principal and resource ids as integers, and key material as strings.
A signed token records the key material it was signed with; signature
verification is modelled as equality of that material with the resolved
verification key (for asymmetric algorithms a key pair is identified by a
single string, which `load_jwt_keys` stores in both the private and public
key maps).
-/

namespace CliporaAI

/-- Python truthiness on an optional string: `None` and the empty string are
falsy, everything else is truthy. Used wherever the source tests a string
with a bare `if x` or `x or y`. -/
def pyTruthy : Option String → Option String
  | some "" => none
  | o => o

/-- JWT-relevant configuration surface of app/core/config.py (Settings). -/
structure Settings where
  algorithm : String
  secret_key : String
  jwt_kid : Option String
  jwt_leeway_seconds : Int
  jwt_issuer : String
  jwt_audience : String
  access_token_expire_minutes : Int
deriving Repr, DecidableEq

/-- Test ALGORITHM in ("RS256", "ES256") from app/core/security.py. -/
def isAsymmetric (alg : String) : Bool :=
  alg = "RS256" || alg = "ES256"

/-- Decoded JWT claim set: the claims the source reads or writes.
`sub = none` models a payload with no sub entry. -/
structure Payload where
  sub : Option String
  exp : Int
  iat : Int
  iss : String
  aud : String
deriving Repr, DecidableEq

/-- JWT header: algorithm and optional key id. -/
structure Header where
  alg : String
  kid : Option String
deriving Repr, DecidableEq

/-- A signed token: header, claim set, and the key material it was signed
with (sigKey); verification succeeds against exactly that material. -/
structure Token where
  header : Header
  payload : Payload
  sigKey : String
deriving Repr, DecidableEq

/-- Failure kinds of the underlying JWT library decode. -/
inductive JoseError where
  | expiredSignature
  | claimsError
deriving Repr, DecidableEq

/-- Modelled from the spec: the `jose.jwt.decode` call of
app/core/security.py (the library body is outside src/). Per spec section
4.2 step 3 it verifies, in order and failing closed: algorithm, signature,
expiry with leeway, issued-at with leeway, issuer exact match, audience
exact match; only an expiry failure after a valid signature is the
distinguished `expiredSignature` outcome (ExpiredSignatureError), every
other failure is a `claimsError` (JWTError). -/
def jose_jwt_decode (tok : Token) (key : String) (algorithm : String)
    (leeway : Int) (issuer audience : String) (now : Int) :
    Except JoseError Payload :=
  if tok.header.alg ≠ algorithm then .error .claimsError
  else if tok.sigKey ≠ key then .error .claimsError
  else if tok.payload.exp + leeway < now then .error .expiredSignature
  else if now < tok.payload.iat - leeway then .error .claimsError
  else if tok.payload.iss ≠ issuer then .error .claimsError
  else if tok.payload.aud ≠ audience then .error .claimsError
  else .ok tok.payload

/-- Failure of create_access_token (RuntimeError("JWT private key not loaded")). -/
inductive SignError where
  | privateKeyNotLoaded
deriving Repr, DecidableEq

/-- app/core/security.py create_access_token (lines 62-97): copy the caller
data (only its sub claim is relevant to the source), stamp exp, iat, iss,
aud; put kid in the header when settings.jwt_kid is truthy; for asymmetric
algorithms pick the private key by settings.jwt_kid or the first loaded key
and fail if none is loaded (or the looked-up key is falsy). -/
def create_access_token (s : Settings) (privateKeys : List (String × String))
    (now : Int) (sub : Option String) (expires_delta : Option Int) :
    Except SignError Token :=
  let expire : Int := now +
    (match expires_delta with
     | some d => d
     | none => s.access_token_expire_minutes * 60)
  let payload : Payload :=
    { sub := sub, exp := expire, iat := now,
      iss := s.jwt_issuer, aud := s.jwt_audience }
  let headerKid : Option String := pyTruthy s.jwt_kid
  if isAsymmetric s.algorithm then
    let kid : Option String :=
      match pyTruthy s.jwt_kid with
      | some k => some k
      | none => (privateKeys.head?).map Prod.fst
    match kid.bind (fun k => privateKeys.lookup k) with
    | none => .error .privateKeyNotLoaded
    | some pk =>
        if pk = "" then .error .privateKeyNotLoaded
        else .ok { header := { alg := s.algorithm, kid := headerKid },
                   payload := payload, sigKey := pk }
  else
    .ok { header := { alg := s.algorithm, kid := headerKid },
          payload := payload, sigKey := s.secret_key }

/-- app/core/security.py decode_access_token lines 117-130: resolve the
verification key. For asymmetric algorithms: a truthy header kid is looked
up exactly in the public key store (a miss leaves the key unset); with no
truthy kid the single stored key is used when the store holds exactly one;
otherwise no key. For symmetric algorithms the shared secret. -/
def resolve_verification_key (s : Settings)
    (publicKeys : List (String × String)) (headerKid : Option String) :
    Option String :=
  if isAsymmetric s.algorithm then
    match pyTruthy headerKid with
    | some kid => publicKeys.lookup kid
    | none =>
        if publicKeys.length = 1 then (publicKeys.head?).map Prod.snd
        else none
  else some s.secret_key

/-- Caller-visible failures of decode_access_token: TokenExpiredError
("Token has expired") versus credentials_exception. -/
inductive DecodeError where
  | expired
  | credentials
deriving Repr, DecidableEq

/-- app/core/security.py decode_access_token (lines 100-159): resolve the
verification key (a falsy key fails closed with credentials_exception),
run the library decode, map ExpiredSignatureError to the dedicated expired
outcome and every other library failure to credentials_exception, and
finally require a sub entry in the payload (presence only). -/
def decode_access_token (s : Settings) (publicKeys : List (String × String))
    (now : Int) (tok : Token) : Except DecodeError Payload :=
  match resolve_verification_key s publicKeys tok.header.kid with
  | none => .error .credentials
  | some key =>
      if key = "" then .error .credentials
      else
        match jose_jwt_decode tok key s.algorithm s.jwt_leeway_seconds
            s.jwt_issuer s.jwt_audience now with
        | .error .expiredSignature => .error .expired
        | .error .claimsError => .error .credentials
        | .ok payload =>
            if payload.sub = none then .error .credentials
            else .ok payload

/-- An HTTPException as raised by the source: status code plus detail. -/
structure HTTPError where
  status_code : Nat
  detail : String
deriving Repr, DecidableEq

/-- app/core/exceptions.py credentials_exception. -/
def credentials_exception : HTTPError :=
  { status_code := 401, detail := "Could not validate credentials" }

/-- app/dependencies.py verify_token (lines 78-95): decode the token,
re-check that sub is present, and translate TokenExpiredError into a 401
with detail "Token has expired"; credentials_exception passes through. -/
def verify_token (s : Settings) (publicKeys : List (String × String))
    (now : Int) (tok : Token) : Except HTTPError Payload :=
  match decode_access_token s publicKeys now tok with
  | .error .expired => .error { status_code := 401, detail := "Token has expired" }
  | .error .credentials => .error credentials_exception
  | .ok payload =>
      if payload.sub = none then .error credentials_exception
      else .ok payload

/-- app/models/user.py User: the fields the authentication core reads. -/
structure User where
  id : Int
  email : String
  hashed_password : String
  is_active : Bool
  last_login_at : Option Int
deriving Repr, DecidableEq

/-- Decimal-digit accumulator for python_int; fails on a non-digit. -/
def digits_to_nat : List Char → Nat → Option Nat
  | [], acc => some acc
  | c :: cs, acc =>
      if c.isDigit then digits_to_nat cs (acc * 10 + (c.toNat - 48))
      else none

/-- The Python built-in int() applied to a string, as used on the sub claim
(dependencies.py line 107, auth_service.py line 67): an optional minus sign
followed by one or more decimal digits parses, anything else raises
ValueError (modelled as none). -/
def python_int (s : String) : Option Int :=
  match s.data with
  | [] => none
  | '-' :: cs =>
      if cs = [] then none
      else (digits_to_nat cs 0).map (fun n => -(n : Int))
  | cs => (digits_to_nat cs 0).map (fun n => (n : Int))

/-- Record-store lookup of a principal by id (select User where id). -/
def db_get_user (db : List User) (uid : Int) : Option User :=
  db.find? (fun u => u.id == uid)

/-- Record-store lookup of a principal by email (select User where email). -/
def db_get_by_email (db : List User) (email : String) : Option User :=
  db.find? (fun u => u.email == email)

/-- Persisting user.last_login_at = now followed by commit. -/
def db_set_last_login (db : List User) (uid : Int) (now : Int) : List User :=
  db.map (fun u => if u.id = uid then { u with last_login_at := some now } else u)

/-- app/dependencies.py line 124: write last_login_at when it is unset or
more than 900 seconds (15 minutes) old. -/
def should_update_last_login (now : Int) (last : Option Int) : Bool :=
  match last with
  | none => true
  | some t => decide (now - t > 900)

/-- Outcomes of app/dependencies.py get_current_user: an HTTPException, or
the uncaught ValueError that int(user_id) raises on a non-integer sub. -/
inductive ResolveError where
  | http (e : HTTPError)
  | valueError
deriving Repr, DecidableEq

/-- app/dependencies.py get_current_user (lines 98-129), taking the payload
verify_token produced. A falsy sub is rejected with credentials_exception;
int(user_id) is modelled by python_int and a parse failure escapes as a
ValueError; an unknown id is credentials_exception; an inactive user is a
403 "Inactive user"; then last_login_at is refreshed under the debounce
window. The result carries the (possibly updated) store and whether the
timestamp was written. -/
def get_current_user (db : List User) (now : Int) (payload : Payload) :
    Except ResolveError User × List User × Bool :=
  match pyTruthy payload.sub with
  | none => (.error (.http credentials_exception), db, false)
  | some sub =>
      match python_int sub with
      | none => (.error .valueError, db, false)
      | some uid =>
          match db_get_user db uid with
          | none => (.error (.http credentials_exception), db, false)
          | some user =>
              if user.is_active = false then
                (.error (.http { status_code := 403, detail := "Inactive user" }),
                 db, false)
              else
                if should_update_last_login now user.last_login_at then
                  (.ok { user with last_login_at := some now },
                   db_set_last_login db uid now, true)
                else (.ok user, db, false)

/-- Outcomes of AuthService.get_current_user: an HTTPException, the
TokenExpiredError that decode_access_token raises and this path never
catches, or the uncaught ValueError of int(token_data.sub). -/
inductive AuthServiceError where
  | http (e : HTTPError)
  | uncaughtTokenExpired
  | valueError
deriving Repr, DecidableEq

/-- app/services/auth_service.py AuthService.get_current_user (lines
57-79): decode the token (TokenExpiredError propagates uncaught), reject a
missing sub with 401 "Invalid authentication credentials", parse sub with
int (a failure escapes as ValueError), reject an unknown id with 401 "User
not found" and an inactive user with 401 "Inactive user". -/
def auth_service_get_current_user (s : Settings)
    (publicKeys : List (String × String)) (db : List User) (now : Int)
    (tok : Token) : Except AuthServiceError User :=
  match decode_access_token s publicKeys now tok with
  | .error .expired => .error .uncaughtTokenExpired
  | .error .credentials => .error (.http credentials_exception)
  | .ok payload =>
      match payload.sub with
      | none => .error (.http { status_code := 401,
                                detail := "Invalid authentication credentials" })
      | some sub =>
          match python_int sub with
          | none => .error .valueError
          | some uid =>
              match db_get_user db uid with
              | none => .error (.http { status_code := 401,
                                        detail := "User not found" })
              | some user =>
                  if user.is_active = false then
                    .error (.http { status_code := 401,
                                    detail := "Inactive user" })
                  else .ok user

/-- app/services/auth_service.py AuthService.authenticate (lines 39-48):
look up by email, then verify the password; either failure yields None.
The bcrypt verify of app/core/security.py is abstracted as a relation. -/
def authenticate (verify : String → String → Bool) (db : List User)
    (email password : String) : Option User :=
  match db_get_by_email db email with
  | none => none
  | some user =>
      if verify password user.hashed_password then some user else none

/-- app/services/auth_service.py AuthService.create_token (lines 50-55). -/
def create_token (s : Settings) (privateKeys : List (String × String))
    (now : Int) (user : User) : Except SignError Token :=
  create_access_token s privateKeys now (some (toString user.id))
    (some (s.access_token_expire_minutes * 60))

/-- Outcome of the login endpoint: a token, the generic 401, or the
RuntimeError create_access_token raises when no private key is loaded. -/
inductive LoginResult where
  | success (t : Token)
  | failure (e : HTTPError)
  | signFailure
deriving Repr, DecidableEq

/-- app/api/v1/auth_router.py login (lines 30-47): authenticate and mint a
token; when authenticate yields None, raise the one generic 401 "Incorrect
email or password" in both failure cases. -/
def login (s : Settings) (privateKeys : List (String × String))
    (verify : String → String → Bool) (db : List User) (now : Int)
    (email password : String) : LoginResult :=
  match authenticate verify db email password with
  | none => .failure { status_code := 401, detail := "Incorrect email or password" }
  | some user =>
      match create_token s privateKeys now user with
      | .error _ => .signFailure
      | .ok t => .success t

/-- app/models/project.py Project: the fields the ownership guard reads. -/
structure Project where
  id : Int
  user_id : Int
deriving Repr, DecidableEq

/-- app/models/video.py Video: the fields the ownership guard reads. -/
structure Video where
  id : Int
  project_id : Int
  user_id : Int
deriving Repr, DecidableEq

/-- app/models/audio.py Audio: the fields the ownership guard reads. -/
structure Audio where
  id : Int
  project_id : Int
  user_id : Int
deriving Repr, DecidableEq

/-- BaseRepository.get for projects: fetch by primary key. -/
def project_repo_get (store : List Project) (pid : Int) : Option Project :=
  store.find? (fun p => p.id == pid)

/-- BaseRepository.get for videos: fetch by primary key. -/
def video_repo_get (store : List Video) (vid : Int) : Option Video :=
  store.find? (fun v => v.id == vid)

/-- BaseRepository.get for audios: fetch by primary key. -/
def audio_repo_get (store : List Audio) (aid : Int) : Option Audio :=
  store.find? (fun a => a.id == aid)

/-- app/services/project_service.py ProjectService.get_project (19-31):
absent id is a 404, foreign owner a 403, else the project. -/
def get_project (store : List Project) (project_id user_id : Int) :
    Except HTTPError Project :=
  match project_repo_get store project_id with
  | none =>
      .error { status_code := 404,
               detail := "Project with ID " ++ toString project_id ++ " not found" }
  | some project =>
      if project.user_id ≠ user_id then
        .error { status_code := 403,
                 detail := "Not authorized to access this project" }
      else .ok project

/-- app/services/video_service.py VideoService.get_video (24-41). -/
def get_video (store : List Video) (video_id user_id : Int) :
    Except HTTPError Video :=
  match video_repo_get store video_id with
  | none =>
      .error { status_code := 404,
               detail := "Video with ID " ++ toString video_id ++ " not found" }
  | some video =>
      if video.user_id ≠ user_id then
        .error { status_code := 403,
                 detail := "Not authorized to access this video" }
      else .ok video

/-- app/services/audio_service.py AudioService.get_audio (25-42). -/
def get_audio (store : List Audio) (audio_id user_id : Int) :
    Except HTTPError Audio :=
  match audio_repo_get store audio_id with
  | none =>
      .error { status_code := 404,
               detail := "Audio with ID " ++ toString audio_id ++ " not found" }
  | some audio =>
      if audio.user_id ≠ user_id then
        .error { status_code := 403,
                 detail := "Not authorized to access this audio file" }
      else .ok audio

/-- VideoRepository.get_by_project: select videos where project_id. -/
def video_repo_get_by_project (store : List Video) (pid : Int) : List Video :=
  store.filter (fun v => v.project_id == pid)

/-- AudioRepository.get_by_project: select audios where project_id. -/
def audio_repo_get_by_project (store : List Audio) (pid : Int) : List Audio :=
  store.filter (fun a => a.project_id == pid)

/-- app/services/video_service.py VideoService.get_videos_by_project
(43-49): list the project videos, then keep only the caller-owned ones. -/
def get_videos_by_project (store : List Video) (project_id user_id : Int) :
    List Video :=
  (video_repo_get_by_project store project_id).filter
    (fun v => v.user_id == user_id)

/-- app/services/audio_service.py AudioService.get_audios_by_project
(44-50). -/
def get_audios_by_project (store : List Audio) (project_id user_id : Int) :
    List Audio :=
  (audio_repo_get_by_project store project_id).filter
    (fun a => a.user_id == user_id)

/-- app/core/security.py load_jwt_keys (lines 28-49): a single key pair is
loaded into both stores under settings.jwt_kid (or "default"). In this
embedding a key pair is identified by one string, stored in both maps, so
signing with the private entry verifies against the public entry. -/
def load_jwt_keys (kid : Option String) (pair : String) :
    List (String × String) × List (String × String) :=
  let k := match pyTruthy kid with
    | some x => x
    | none => "default"
  ([(k, pair)], [(k, pair)])

/-- Well-formed key configuration for the round-trip property: either a
symmetric algorithm with a non-empty shared secret, or an asymmetric one
whose store holds exactly the single pair load_jwt_keys produces, with
settings.jwt_kid either naming that pair or absent (the stored kid then
being truthy, as "default" is). -/
def keyConfigOk (s : Settings) (keys : List (String × String)) : Prop :=
  (isAsymmetric s.algorithm = false ∧ s.secret_key ≠ "") ∨
  (isAsymmetric s.algorithm = true ∧
    ∃ kid k, keys = [(kid, k)] ∧ k ≠ "" ∧
      (pyTruthy s.jwt_kid = some kid ∨
        (pyTruthy s.jwt_kid = none ∧ kid ≠ "")))

/-! Helper lemmas. -/

theorem pyTruthy_eq_some {o : Option String} {x : String}
    (h : pyTruthy o = some x) : o = some x ∧ x ≠ "" := by
  unfold pyTruthy at h
  split at h
  · exact absurd h (by simp)
  · next o' hne =>
      cases h
      refine ⟨rfl, ?_⟩
      intro hx
      exact hne (by rw [hx])

/-! Concrete fixtures used by the closed counterexample and witness
theorems: an HS256 configuration together with users and tokens. -/

/-- A symmetric configuration with a 30 second leeway. -/
def sampleSettings : Settings :=
  { algorithm := "HS256", secret_key := "secret", jwt_kid := none,
    jwt_leeway_seconds := 30, jwt_issuer := "cliporaai",
    jwt_audience := "cliporaai-api", access_token_expire_minutes := 30 }

/-- An active principal with id 1 and no recorded login. -/
def sampleUser1 : User :=
  { id := 1, email := "user@example.com", hashed_password := "hashed",
    is_active := true, last_login_at := none }

/-- The same principal deactivated. -/
def sampleInactiveUser : User :=
  { id := 1, email := "user@example.com", hashed_password := "hashed",
    is_active := false, last_login_at := none }

/-- A token for principal 1, validly signed under sampleSettings,
with exp 1800 and iat 0. -/
def sampleToken1 : Token :=
  { header := { alg := "HS256", kid := none },
    payload := { sub := some "1", exp := 1800, iat := 0,
                 iss := "cliporaai", aud := "cliporaai-api" },
    sigKey := "secret" }

/-- A validly signed token whose sub is not an integer literal. -/
def sampleTokenAbc : Token :=
  { header := { alg := "HS256", kid := none },
    payload := { sub := some "abc", exp := 1800, iat := 0,
                 iss := "cliporaai", aud := "cliporaai-api" },
    sigKey := "secret" }

/-- A validly signed token whose sub is the empty string. -/
def sampleTokenEmptySub : Token :=
  { header := { alg := "HS256", kid := none },
    payload := { sub := some "", exp := 1800, iat := 0,
                 iss := "cliporaai", aud := "cliporaai-api" },
    sigKey := "secret" }

/-! Claim theorems. -/

/-- C4: for every owned-resource access (project, video, audio) with
resource id rid and caller uid: a missing resource is a 404 NotFound for
every caller; an existing resource with a different owner is a 403
Forbidden; an owned resource is returned; and the two failure statuses are
distinct, never collapsed. -/
theorem ownership_guard (projects : List Project) (videos : List Video)
    (audios : List Audio) (rid uid : Int) :
    (project_repo_get projects rid = none →
      get_project projects rid uid =
        .error { status_code := 404,
                 detail := "Project with ID " ++ toString rid ++ " not found" }) ∧
    (∀ p, project_repo_get projects rid = some p → p.user_id ≠ uid →
      get_project projects rid uid =
        .error { status_code := 403,
                 detail := "Not authorized to access this project" }) ∧
    (∀ p, project_repo_get projects rid = some p → p.user_id = uid →
      get_project projects rid uid = .ok p) ∧
    (video_repo_get videos rid = none →
      get_video videos rid uid =
        .error { status_code := 404,
                 detail := "Video with ID " ++ toString rid ++ " not found" }) ∧
    (∀ v, video_repo_get videos rid = some v → v.user_id ≠ uid →
      get_video videos rid uid =
        .error { status_code := 403,
                 detail := "Not authorized to access this video" }) ∧
    (∀ v, video_repo_get videos rid = some v → v.user_id = uid →
      get_video videos rid uid = .ok v) ∧
    (audio_repo_get audios rid = none →
      get_audio audios rid uid =
        .error { status_code := 404,
                 detail := "Audio with ID " ++ toString rid ++ " not found" }) ∧
    (∀ a, audio_repo_get audios rid = some a → a.user_id ≠ uid →
      get_audio audios rid uid =
        .error { status_code := 403,
                 detail := "Not authorized to access this audio file" }) ∧
    (∀ a, audio_repo_get audios rid = some a → a.user_id = uid →
      get_audio audios rid uid = .ok a) ∧
    ((404 : Nat) ≠ 403) := by
  refine ⟨?_, ?_, ?_, ?_, ?_, ?_, ?_, ?_, ?_, by decide⟩
  · intro h; simp [get_project, h]
  · intro p hp hne; simp [get_project, hp, hne]
  · intro p hp he; simp [get_project, hp, he]
  · intro h; simp [get_video, h]
  · intro v hv hne; simp [get_video, hv, hne]
  · intro v hv he; simp [get_video, hv, he]
  · intro h; simp [get_audio, h]
  · intro a ha hne; simp [get_audio, ha, hne]
  · intro a ha he; simp [get_audio, ha, he]

/-- C4 witness: the guard evaluated at concrete stores, hitting the 404,
403 and success branches. -/
theorem ownership_guard_witness :
    get_project [] 5 7 =
      .error { status_code := 404, detail := "Project with ID 5 not found" } ∧
    get_video [{ id := 1, project_id := 1, user_id := 2 }] 1 3 =
      .error { status_code := 403,
               detail := "Not authorized to access this video" } ∧
    get_audio [{ id := 4, project_id := 1, user_id := 3 }] 4 3 =
      .ok { id := 4, project_id := 1, user_id := 3 } :=
  ⟨(ownership_guard [] [] [] 5 7).1 rfl,
   (ownership_guard [] [{ id := 1, project_id := 1, user_id := 2 }] [] 1 3).2.2.2.2.1
     { id := 1, project_id := 1, user_id := 2 } rfl (by decide),
   (ownership_guard [] [] [{ id := 4, project_id := 1, user_id := 3 }] 4 3).2.2.2.2.2.2.2.2.1
     { id := 4, project_id := 1, user_id := 3 } rfl rfl⟩

/-- C10: the project-scoped listings return exactly the stored items of the
requested project that the caller owns; items of the project owned by
someone else are silently omitted, never surfaced as an error, and every
returned element is owned by the caller. -/
theorem project_scoped_listing (videos : List Video) (audios : List Audio)
    (pid uid : Int) :
    get_videos_by_project videos pid uid =
      videos.filter (fun v => v.user_id == uid && v.project_id == pid) ∧
    (∀ v ∈ get_videos_by_project videos pid uid,
      v.user_id = uid ∧ v.project_id = pid ∧ v ∈ videos) ∧
    (∀ v ∈ videos, v.project_id = pid → v.user_id ≠ uid →
      v ∉ get_videos_by_project videos pid uid) ∧
    get_audios_by_project audios pid uid =
      audios.filter (fun a => a.user_id == uid && a.project_id == pid) ∧
    (∀ a ∈ get_audios_by_project audios pid uid,
      a.user_id = uid ∧ a.project_id = pid ∧ a ∈ audios) ∧
    (∀ a ∈ audios, a.project_id = pid → a.user_id ≠ uid →
      a ∉ get_audios_by_project audios pid uid) := by
  refine ⟨?_, ?_, ?_, ?_, ?_, ?_⟩
  · exact List.filter_filter _ videos
  · intro v hv
    simp only [get_videos_by_project, video_repo_get_by_project,
      List.mem_filter, beq_iff_eq] at hv
    exact ⟨hv.2, hv.1.2, hv.1.1⟩
  · intro v _ _ hne hmem
    simp only [get_videos_by_project, video_repo_get_by_project,
      List.mem_filter, beq_iff_eq] at hmem
    exact hne hmem.2
  · exact List.filter_filter _ audios
  · intro a ha
    simp only [get_audios_by_project, audio_repo_get_by_project,
      List.mem_filter, beq_iff_eq] at ha
    exact ⟨ha.2, ha.1.2, ha.1.1⟩
  · intro a _ _ hne hmem
    simp only [get_audios_by_project, audio_repo_get_by_project,
      List.mem_filter, beq_iff_eq] at hmem
    exact hne hmem.2

/-- C10 witness: a two-owner store in which the foreign item is omitted. -/
theorem project_scoped_listing_witness :
    get_videos_by_project
      [{ id := 1, project_id := 9, user_id := 1 },
       { id := 2, project_id := 9, user_id := 2 }] 9 1 =
      [{ id := 1, project_id := 9, user_id := 1 }] ∧
    ({ id := 2, project_id := 9, user_id := 2 } : Video) ∉
      get_videos_by_project
        [{ id := 1, project_id := 9, user_id := 1 },
         { id := 2, project_id := 9, user_id := 2 }] 9 1 :=
  ⟨rfl,
   (project_scoped_listing
      [{ id := 1, project_id := 9, user_id := 1 },
       { id := 2, project_id := 9, user_id := 2 }] [] 9 1).2.2.1
     { id := 2, project_id := 9, user_id := 2 } (by decide) rfl (by decide)⟩

/-- C6: login fails with one and the same generic 401 outcome whether the
email is unknown or the password verification fails, so two runs that
differ only in which half failed are indistinguishable. -/
theorem login_non_leakage (s : Settings)
    (privateKeys : List (String × String))
    (verify : String → String → Bool) (db : List User) (now : Int) :
    (∀ email password, db_get_by_email db email = none →
      login s privateKeys verify db now email password =
        .failure { status_code := 401,
                   detail := "Incorrect email or password" }) ∧
    (∀ email password u, db_get_by_email db email = some u →
      verify password u.hashed_password = false →
      login s privateKeys verify db now email password =
        .failure { status_code := 401,
                   detail := "Incorrect email or password" }) ∧
    (∀ e₁ p₁ e₂ p₂, authenticate verify db e₁ p₁ = none →
      authenticate verify db e₂ p₂ = none →
      login s privateKeys verify db now e₁ p₁ =
        login s privateKeys verify db now e₂ p₂) := by
  refine ⟨?_, ?_, ?_⟩
  · intro email password h
    simp [login, authenticate, h]
  · intro email password u hu hv
    simp [login, authenticate, hu, hv]
  · intro e₁ p₁ e₂ p₂ h₁ h₂
    simp [login, h₁, h₂]

/-- C6 witness: an unknown email and a wrong password produce the same
outcome on a concrete store. -/
theorem login_non_leakage_witness :
    login sampleSettings [] (fun _ _ => false) [sampleUser1] 0
        "ghost@example.com" "pw" =
      .failure { status_code := 401, detail := "Incorrect email or password" } ∧
    login sampleSettings [] (fun _ _ => false) [sampleUser1] 0
        "user@example.com" "wrong" =
      .failure { status_code := 401, detail := "Incorrect email or password" } ∧
    login sampleSettings [] (fun _ _ => false) [sampleUser1] 0
        "ghost@example.com" "pw" =
      login sampleSettings [] (fun _ _ => false) [sampleUser1] 0
        "user@example.com" "wrong" :=
  ⟨(login_non_leakage sampleSettings [] (fun _ _ => false) [sampleUser1] 0).1
      "ghost@example.com" "pw" rfl,
   (login_non_leakage sampleSettings [] (fun _ _ => false) [sampleUser1] 0).2.1
      "user@example.com" "wrong" sampleUser1 rfl rfl,
   (login_non_leakage sampleSettings [] (fun _ _ => false) [sampleUser1] 0).2.2
      "ghost@example.com" "pw" "user@example.com" "wrong" rfl rfl⟩

/-- The modelled signature of a token verifies under the configuration:
key resolution yields a truthy key, the algorithm matches, and the token
was signed with exactly that key. -/
def sigVerifies (s : Settings) (publicKeys : List (String × String))
    (tok : Token) : Prop :=
  ∃ k, resolve_verification_key s publicKeys tok.header.kid = some k ∧
    k ≠ "" ∧ tok.header.alg = s.algorithm ∧ tok.sigKey = k

theorem jose_expired_iff (tok : Token) (key algorithm : String)
    (leeway : Int) (issuer audience : String) (now : Int) :
    jose_jwt_decode tok key algorithm leeway issuer audience now =
        .error .expiredSignature ↔
      (tok.header.alg = algorithm ∧ tok.sigKey = key ∧
       tok.payload.exp + leeway < now) := by
  unfold jose_jwt_decode
  split_ifs with h1 h2 h3 h4 h5 h6 <;> simp_all

theorem jose_ok_inversion (tok : Token) (key algorithm : String)
    (leeway : Int) (issuer audience : String) (now : Int) (p : Payload)
    (h : jose_jwt_decode tok key algorithm leeway issuer audience now = .ok p) :
    p = tok.payload ∧ tok.header.alg = algorithm ∧ tok.sigKey = key ∧
      tok.payload.iat - leeway ≤ now ∧ now ≤ tok.payload.exp + leeway ∧
      tok.payload.iss = issuer ∧ tok.payload.aud = audience := by
  unfold jose_jwt_decode at h
  split_ifs at h with h1 h2 h3 h4 h5 h6
  cases h
  exact ⟨rfl, not_ne_iff.mp h1, not_ne_iff.mp h2, by omega, by omega,
    not_ne_iff.mp h5, not_ne_iff.mp h6⟩

theorem decode_ok_inversion (s : Settings)
    (publicKeys : List (String × String)) (now : Int) (tok : Token)
    (p : Payload)
    (h : decode_access_token s publicKeys now tok = .ok p) :
    p = tok.payload ∧ tok.header.alg = s.algorithm ∧
      tok.payload.sub ≠ none ∧
      tok.payload.iat - s.jwt_leeway_seconds ≤ now ∧
      now ≤ tok.payload.exp + s.jwt_leeway_seconds ∧
      tok.payload.iss = s.jwt_issuer ∧ tok.payload.aud = s.jwt_audience := by
  unfold decode_access_token at h
  split at h
  · cases h
  · split at h
    · cases h
    · split at h
      · cases h
      · cases h
      · rename_i q hjose
        have hq := jose_ok_inversion tok _ s.algorithm s.jwt_leeway_seconds
          s.jwt_issuer s.jwt_audience now q hjose
        split at h
        · cases h
        · rename_i hsub
          cases h
          exact ⟨hq.1, hq.2.1, hq.1 ▸ hsub, hq.2.2.2.1,
            hq.2.2.2.2.1, hq.2.2.2.2.2.1, hq.2.2.2.2.2.2⟩

/-- C5: for asymmetric algorithms the verification key is resolved from
the key store only: a truthy header kid resolves to exactly the stored key
of that id; with no kid and a single stored key that key is used; with no
kid and zero or several keys, or with a kid that matches no entry, decode
fails closed with the credentials outcome; and any resolved key is a value
of the store, never arbitrary. -/
theorem asymmetric_key_resolution (s : Settings)
    (pub : List (String × String)) (now : Int) (tok : Token)
    (halg : isAsymmetric s.algorithm = true) :
    (∀ kid v, pyTruthy tok.header.kid = some kid → pub.lookup kid = some v →
      resolve_verification_key s pub tok.header.kid = some v) ∧
    (∀ kid, pyTruthy tok.header.kid = some kid → pub.lookup kid = none →
      decode_access_token s pub now tok = .error .credentials) ∧
    (∀ k₀ v₀, pub = [(k₀, v₀)] → pyTruthy tok.header.kid = none →
      resolve_verification_key s pub tok.header.kid = some v₀) ∧
    (pyTruthy tok.header.kid = none → pub.length ≠ 1 →
      decode_access_token s pub now tok = .error .credentials) ∧
    (∀ v, resolve_verification_key s pub tok.header.kid = some v →
      v ∈ pub.map Prod.snd) := by
  refine ⟨?_, ?_, ?_, ?_, ?_⟩
  · intro kid v hkid hv
    simp [resolve_verification_key, halg, hkid, hv]
  · intro kid hkid hv
    simp [decode_access_token, resolve_verification_key, halg, hkid, hv]
  · intro k₀ v₀ hpub hkid
    simp [resolve_verification_key, halg, hkid, hpub]
  · intro hkid hlen
    simp [decode_access_token, resolve_verification_key, halg, hkid, hlen]
  · intro v hv
    simp only [resolve_verification_key, halg, if_pos] at hv
    cases hkid : pyTruthy tok.header.kid with
    | some kid =>
        rw [hkid] at hv
        rcases List.lookup_eq_some_iff.mp hv with ⟨l₁, l₂, heq, -⟩
        subst heq
        simp
    | none =>
        rw [hkid] at hv
        by_cases hlen : pub.length = 1
        · rw [if_pos hlen] at hv
          cases pub with
          | nil => cases hv
          | cons a t =>
              cases t with
              | nil =>
                  simp only [List.head?, Option.map] at hv
                  cases hv
                  simp
              | cons b t₂ => simp at hlen
        · rw [if_neg hlen] at hv
          cases hv

/-- C5 witness: a two-key store resolved by exact kid match, and the
fail-closed branches at concrete inputs. -/
theorem asymmetric_key_resolution_witness :
    resolve_verification_key
      { sampleSettings with algorithm := "RS256" }
      [("k1", "pubone"), ("k2", "pubtwo")] (some "k2") = some "pubtwo" ∧
    decode_access_token
      { sampleSettings with algorithm := "RS256" }
      [("k1", "pubone"), ("k2", "pubtwo")] 100
      { sampleToken1 with header := { alg := "RS256", kid := none } } =
      .error .credentials :=
  ⟨(asymmetric_key_resolution { sampleSettings with algorithm := "RS256" }
      [("k1", "pubone"), ("k2", "pubtwo")] 100
      { sampleToken1 with header := { alg := "RS256", kid := some "k2" } }
      rfl).1 "k2" "pubtwo" rfl rfl,
   (asymmetric_key_resolution { sampleSettings with algorithm := "RS256" }
      [("k1", "pubone"), ("k2", "pubtwo")] 100
      { sampleToken1 with header := { alg := "RS256", kid := none } }
      rfl).2.2.2.1 rfl (by decide)⟩

/-- C2: the expired outcome arises exactly when the signature verifies and
only the expiry check (beyond the leeway) fails; every other decode
failure is the credentials outcome; and the two are surfaced to callers by
verify_token as distinct results (401 "Token has expired" versus the
generic credentials_exception). -/
theorem expired_vs_invalid (s : Settings) (pub : List (String × String))
    (now : Int) (tok : Token) :
    (decode_access_token s pub now tok = .error .expired ↔
      (sigVerifies s pub tok ∧
        tok.payload.exp + s.jwt_leeway_seconds < now)) ∧
    (decode_access_token s pub now tok = .error .expired →
      verify_token s pub now tok =
        .error { status_code := 401, detail := "Token has expired" }) ∧
    (decode_access_token s pub now tok = .error .credentials →
      verify_token s pub now tok = .error credentials_exception) ∧
    (({ status_code := 401, detail := "Token has expired" } : HTTPError) ≠
      credentials_exception) := by
  refine ⟨?_, ?_, ?_, by decide⟩
  · constructor
    · intro h
      unfold decode_access_token at h
      split at h
      · cases h
      · rename_i key hres
        split at h
        · cases h
        · rename_i hk
          split at h
          · rename_i hjose
            have hc := (jose_expired_iff tok key s.algorithm
              s.jwt_leeway_seconds s.jwt_issuer s.jwt_audience now).mp hjose
            exact ⟨⟨key, hres, hk, hc.1, hc.2.1⟩, hc.2.2⟩
          · cases h
          · split at h
            · cases h
            · cases h
    · rintro ⟨⟨key, hres, hk, halg, hsig⟩, hexp⟩
      have hj := (jose_expired_iff tok key s.algorithm s.jwt_leeway_seconds
        s.jwt_issuer s.jwt_audience now).mpr ⟨halg, hsig, hexp⟩
      unfold decode_access_token
      simp only [hres, if_neg hk, hj]
  · intro h
    unfold verify_token
    rw [h]
  · intro h
    unfold verify_token
    rw [h]

/-- C2 witness: an expired token and a tampered token surface as the two
distinct outcomes at concrete inputs. -/
theorem expired_vs_invalid_witness :
    verify_token sampleSettings [] 1900 sampleToken1 =
      .error { status_code := 401, detail := "Token has expired" } ∧
    verify_token sampleSettings [] 100
        { sampleToken1 with sigKey := "tampered" } =
      .error credentials_exception :=
  ⟨(expired_vs_invalid sampleSettings [] 1900 sampleToken1).2.1 rfl,
   (expired_vs_invalid sampleSettings [] 100
      { sampleToken1 with sigKey := "tampered" }).2.2.1 rfl⟩

/-- A token identical to sampleToken1 but with no sub claim at all. -/
def sampleTokenNoSub : Token :=
  { header := { alg := "HS256", kid := none },
    payload := { sub := none, exp := 1800, iat := 0,
                 iss := "cliporaai", aud := "cliporaai-api" },
    sigKey := "secret" }

/-- C7 counterexample: a token that otherwise fully verifies (signature,
window, issuer, audience) but whose sub is the empty string is accepted by
decode_access_token, which returns the empty subject instead of failing
validation as the claim requires. -/
theorem empty_sub_accepted_counterexample :
    decode_access_token sampleSettings [] 100 sampleTokenEmptySub =
      .ok sampleTokenEmptySub.payload ∧
    sampleTokenEmptySub.payload.sub = some "" := ⟨rfl, rfl⟩

/-- C7 (amended): decode_access_token requires only the presence of the
sub claim. When the token otherwise verifies, an absent sub is rejected
with the credentials outcome, while any present sub — the empty string
included — is accepted and returned unchanged. -/
theorem sub_presence_only (s : Settings) (pub : List (String × String))
    (now : Int) (tok : Token) (K : String)
    (hres : resolve_verification_key s pub tok.header.kid = some K)
    (hK : K ≠ "")
    (hjose : jose_jwt_decode tok K s.algorithm s.jwt_leeway_seconds
      s.jwt_issuer s.jwt_audience now = .ok tok.payload) :
    (tok.payload.sub = none →
      decode_access_token s pub now tok = .error .credentials) ∧
    (tok.payload.sub ≠ none →
      decode_access_token s pub now tok = .ok tok.payload) := by
  constructor
  · intro hsub
    unfold decode_access_token
    simp only [hres, if_neg hK, hjose, if_pos hsub]
  · intro hsub
    unfold decode_access_token
    simp only [hres, if_neg hK, hjose, if_neg hsub]

/-- C7 witness: the amended property evaluated at a token with no sub and
at a token with an ordinary sub. -/
theorem sub_presence_only_witness :
    decode_access_token sampleSettings [] 100 sampleTokenNoSub =
      .error .credentials ∧
    decode_access_token sampleSettings [] 100 sampleToken1 =
      .ok sampleToken1.payload :=
  ⟨(sub_presence_only sampleSettings [] 100 sampleTokenNoSub "secret"
      rfl (by decide) rfl).1 rfl,
   (sub_presence_only sampleSettings [] 100 sampleToken1 "secret"
      rfl (by decide) rfl).2 (by decide)⟩

/-- C3 counterexample: on the AuthService.get_current_user resolution path
an inactive principal presenting a validly signed, unexpired token is
rejected with status 401 "Inactive user" — the same HTTP status as the
invalid-credential outcome, not a distinct Forbidden status, refuting the
claim for this resolution path. -/
theorem inactive_rejection_counterexample :
    auth_service_get_current_user sampleSettings [] [sampleInactiveUser]
        100 sampleToken1 =
      .error (.http { status_code := 401, detail := "Inactive user" }) ∧
    credentials_exception.status_code = 401 := ⟨rfl, rfl⟩

/-- C3 (amended): the dependencies.get_current_user path rejects an
otherwise-valid token of an inactive principal with 403 Forbidden — a
status distinct from the 401 invalid-credential outcome — and never
returns the principal; the AuthService.get_current_user path instead
rejects the same principal with a 401 "Inactive user". -/
theorem inactive_rejection_amended (s : Settings)
    (pub : List (String × String)) (db : List User) (now : Int)
    (tok : Token) (payload : Payload) (sub : String) (uid : Int)
    (user : User)
    (hsub : pyTruthy payload.sub = some sub)
    (hparse : python_int sub = some uid)
    (hfound : db_get_user db uid = some user)
    (hinactive : user.is_active = false) :
    get_current_user db now payload =
      (.error (.http { status_code := 403, detail := "Inactive user" }),
       db, false) ∧
    (403 : Nat) ≠ credentials_exception.status_code ∧
    (decode_access_token s pub now tok = .ok payload →
      auth_service_get_current_user s pub db now tok =
        .error (.http { status_code := 401, detail := "Inactive user" })) := by
  refine ⟨?_, by decide, ?_⟩
  · unfold get_current_user
    simp [hsub, hparse, hfound, hinactive]
  · intro hdec
    unfold auth_service_get_current_user
    have hps := (pyTruthy_eq_some hsub).1
    simp [hdec, hps, hparse, hfound, hinactive]

/-- C3 witness: the amended theorem evaluated at a concrete inactive user
and valid token. -/
theorem inactive_rejection_amended_witness :
    get_current_user [sampleInactiveUser] 100 sampleToken1.payload =
      (.error (.http { status_code := 403, detail := "Inactive user" }),
       [sampleInactiveUser], false) ∧
    auth_service_get_current_user sampleSettings [] [sampleInactiveUser]
        100 sampleToken1 =
      .error (.http { status_code := 401, detail := "Inactive user" }) :=
  have h := inactive_rejection_amended sampleSettings [] [sampleInactiveUser]
    100 sampleToken1 sampleToken1.payload "1" 1 sampleInactiveUser
    rfl rfl rfl rfl
  ⟨h.1, h.2.2 rfl⟩

/-- C8: at a validly signed token whose sub is "abc", decode succeeds and
then the int() conversion raises an uncaught ValueError on both resolution
paths — neither surfaces the invalid-credential outcome the specification
prescribes for a parse failure — while a sub that parses but names no
stored principal is rejected with credentials_exception. -/
theorem sub_parse_failure_uncaught :
    decode_access_token sampleSettings [] 100 sampleTokenAbc =
      .ok sampleTokenAbc.payload ∧
    get_current_user [sampleUser1] 100 sampleTokenAbc.payload =
      (.error .valueError, [sampleUser1], false) ∧
    auth_service_get_current_user sampleSettings [] [sampleUser1] 100
        sampleTokenAbc = .error .valueError ∧
    (ResolveError.valueError ≠ .http credentials_exception) ∧
    get_current_user [sampleUser1] 100
        { sampleTokenAbc.payload with sub := some "2" } =
      (.error (.http credentials_exception), [sampleUser1], false) :=
  ⟨rfl, rfl, rfl, by decide, rfl⟩

theorem db_get_user_set_last (db : List User) (uid t : Int) :
    db_get_user (db_set_last_login db uid t) uid =
      (db_get_user db uid).map
        (fun u => { u with last_login_at := some t }) := by
  induction db with
  | nil => rfl
  | cons a l ih =>
      by_cases h : a.id = uid
      · simp [db_get_user, db_set_last_login, List.find?_cons, h]
      · simp only [db_get_user, db_set_last_login, List.map_cons] at *
        rw [if_neg h]
        have hne : (a.id == uid) = false := by simp [h]
        simp [List.find?_cons, hne, ih]

theorem get_current_user_ok_inversion (db : List User) (now : Int)
    (payload : Payload) (u : User) (db' : List User) (w : Bool)
    (h : get_current_user db now payload = (.ok u, db', w)) :
    ∃ sub uid user, pyTruthy payload.sub = some sub ∧
      python_int sub = some uid ∧ db_get_user db uid = some user ∧
      user.is_active = true ∧
      ((should_update_last_login now user.last_login_at = true ∧
        u = { user with last_login_at := some now } ∧
        db' = db_set_last_login db uid now ∧ w = true) ∨
       (should_update_last_login now user.last_login_at = false ∧
        u = user ∧ db' = db ∧ w = false)) := by
  unfold get_current_user at h
  split at h
  · simp at h
  · rename_i sub hsub
    split at h
    · simp at h
    · rename_i uid hparse
      split at h
      · simp at h
      · rename_i user hfound
        split at h
        · simp at h
        · rename_i hactive
          have hact : user.is_active = true := by
            revert hactive
            cases user.is_active <;> simp
          split at h
          · rename_i hupd
            simp only [Prod.mk.injEq, Except.ok.injEq] at h
            exact ⟨sub, uid, user, hsub, hparse, hfound, hact,
              .inl ⟨hupd, h.1.symm, h.2.1.symm, h.2.2.symm⟩⟩
          · rename_i hupd
            simp only [Prod.mk.injEq, Except.ok.injEq] at h
            exact ⟨sub, uid, user, hsub, hparse, hfound, hact,
              .inr ⟨by simpa using hupd, h.1.symm, h.2.1.symm, h.2.2.symm⟩⟩

/-- C9: the last-seen write of identity resolution is debounced. Two
successful resolutions of the same token within the 900 second window
write last_login_at at most once; when resolutions are separated by more
than the window, a resolution that follows a write writes again; a
resolution always writes when last_login_at is unset; and a failed
resolution never touches the store. -/
theorem debounced_last_login (db : List User) (payload : Payload)
    (t₀ t₁ : Int) :
    (∀ u₁ db₁ w₁ u₂ db₂ w₂,
      get_current_user db t₀ payload = (.ok u₁, db₁, w₁) →
      get_current_user db₁ t₁ payload = (.ok u₂, db₂, w₂) →
      t₁ - t₀ ≤ 900 → ¬(w₁ = true ∧ w₂ = true)) ∧
    (∀ u₁ db₁ u₂ db₂ w₂,
      get_current_user db t₀ payload = (.ok u₁, db₁, true) →
      get_current_user db₁ t₁ payload = (.ok u₂, db₂, w₂) →
      t₁ - t₀ > 900 → w₂ = true) ∧
    (∀ sub uid user, pyTruthy payload.sub = some sub →
      python_int sub = some uid → db_get_user db uid = some user →
      user.is_active = true → user.last_login_at = none →
      get_current_user db t₀ payload =
        (.ok { user with last_login_at := some t₀ },
         db_set_last_login db uid t₀, true)) ∧
    (∀ e db₂ w, get_current_user db t₀ payload = (.error e, db₂, w) →
      db₂ = db ∧ w = false) := by
  refine ⟨?_, ?_, ?_, ?_⟩
  · rintro u₁ db₁ w₁ u₂ db₂ w₂ h₁ h₂ hle ⟨hw₁, hw₂⟩
    subst hw₁ hw₂
    obtain ⟨sub, uid, user, hsub, hparse, hfound, -, hcase₁⟩ :=
      get_current_user_ok_inversion db t₀ payload u₁ db₁ true h₁
    rcases hcase₁ with ⟨-, -, hdb₁, -⟩ | ⟨-, -, -, hw⟩
    · obtain ⟨sub₂, uid₂, user₂, hsub₂, hparse₂, hfound₂, -, hcase₂⟩ :=
        get_current_user_ok_inversion db₁ t₁ payload u₂ db₂ true h₂
      rw [hsub] at hsub₂
      cases hsub₂
      rw [hparse] at hparse₂
      cases hparse₂
      rw [hdb₁, db_get_user_set_last, hfound] at hfound₂
      simp only [Option.map_some'] at hfound₂
      cases hfound₂
      rcases hcase₂ with ⟨hupd₂, -, -, -⟩ | ⟨-, -, -, hw₂⟩
      · unfold should_update_last_login at hupd₂
        simp only [decide_eq_true_eq] at hupd₂
        omega
      · cases hw₂
    · cases hw
  · rintro u₁ db₁ u₂ db₂ w₂ h₁ h₂ hgt
    obtain ⟨sub, uid, user, hsub, hparse, hfound, -, hcase₁⟩ :=
      get_current_user_ok_inversion db t₀ payload u₁ db₁ true h₁
    rcases hcase₁ with ⟨-, -, hdb₁, -⟩ | ⟨-, -, -, hw⟩
    · obtain ⟨sub₂, uid₂, user₂, hsub₂, hparse₂, hfound₂, -, hcase₂⟩ :=
        get_current_user_ok_inversion db₁ t₁ payload u₂ db₂ w₂ h₂
      rw [hsub] at hsub₂
      cases hsub₂
      rw [hparse] at hparse₂
      cases hparse₂
      rw [hdb₁, db_get_user_set_last, hfound] at hfound₂
      simp only [Option.map_some'] at hfound₂
      cases hfound₂
      rcases hcase₂ with ⟨-, -, -, hw₂⟩ | ⟨hupd₂, -, -, -⟩
      · exact hw₂
      · unfold should_update_last_login at hupd₂
        simp only [decide_eq_false_iff_not] at hupd₂
        exact absurd hgt hupd₂
    · cases hw
  · intro sub uid user hsub hparse hfound hact hnone
    unfold get_current_user
    simp [hsub, hparse, hfound, hact, should_update_last_login, hnone]
  · intro e db₂ w h
    unfold get_current_user at h
    split at h
    · simp only [Prod.mk.injEq] at h
      exact ⟨h.2.1.symm, h.2.2.symm⟩
    · split at h
      · simp only [Prod.mk.injEq] at h
        exact ⟨h.2.1.symm, h.2.2.symm⟩
      · split at h
        · simp only [Prod.mk.injEq] at h
          exact ⟨h.2.1.symm, h.2.2.symm⟩
        · split at h
          · simp only [Prod.mk.injEq] at h
            exact ⟨h.2.1.symm, h.2.2.symm⟩
          · split at h <;> simp at h

/-- C9 witness: a resolution with last_login_at unset writes it. -/
theorem debounced_last_login_witness :
    get_current_user [sampleUser1] 100 sampleToken1.payload =
      (.ok { sampleUser1 with last_login_at := some 100 },
       db_set_last_login [sampleUser1] 1 100, true) :=
  (debounced_last_login [sampleUser1] sampleToken1.payload 100 0).2.2.1
    "1" 1 sampleUser1 rfl rfl rfl rfl rfl

theorem pyTruthy_some {x : String} (hx : x ≠ "") :
    pyTruthy (some x) = some x := by
  unfold pyTruthy
  split
  · rename_i h
    cases h
    exact absurd rfl hx
  · rfl

theorem decode_encoded_token (s : Settings) (keys : List (String × String))
    (t : Int) (tok : Token) (K : String)
    (hres : resolve_verification_key s keys tok.header.kid = some K)
    (hK : K ≠ "") (halg : tok.header.alg = s.algorithm)
    (hsig : tok.sigKey = K)
    (hiss : tok.payload.iss = s.jwt_issuer)
    (haud : tok.payload.aud = s.jwt_audience)
    (hsub : tok.payload.sub ≠ none) :
    decode_access_token s keys t tok =
      (if tok.payload.exp + s.jwt_leeway_seconds < t then .error .expired
       else if t < tok.payload.iat - s.jwt_leeway_seconds then
         .error .credentials
       else .ok tok.payload) := by
  by_cases h₁ : tok.payload.exp + s.jwt_leeway_seconds < t
  · rw [if_pos h₁]
    have hj := (jose_expired_iff tok K s.algorithm s.jwt_leeway_seconds
      s.jwt_issuer s.jwt_audience t).mpr ⟨halg, hsig, h₁⟩
    unfold decode_access_token
    simp only [hres, if_neg hK, hj]
  · have hj : jose_jwt_decode tok K s.algorithm s.jwt_leeway_seconds
        s.jwt_issuer s.jwt_audience t =
        (if t < tok.payload.iat - s.jwt_leeway_seconds then
          .error .claimsError
         else .ok tok.payload) := by
      unfold jose_jwt_decode
      rw [if_neg (not_ne_iff.mpr halg), if_neg (not_ne_iff.mpr hsig),
        if_neg h₁]
      by_cases h₂ : t < tok.payload.iat - s.jwt_leeway_seconds
      · rw [if_pos h₂, if_pos h₂]
      · rw [if_neg h₂, if_neg h₂, if_neg (not_ne_iff.mpr hiss),
          if_neg (not_ne_iff.mpr haud)]
    rw [if_neg h₁]
    by_cases h₂ : t < tok.payload.iat - s.jwt_leeway_seconds
    · rw [if_pos h₂] at hj ⊢
      unfold decode_access_token
      simp only [hres, if_neg hK, hj]
    · rw [if_neg h₂] at hj ⊢
      unfold decode_access_token
      simp only [hres, if_neg hK, hj, if_neg hsub]

theorem round_trip_core (s : Settings) (keys : List (String × String))
    (t : Int) (tok : Token) (K subVal : String)
    (hres : resolve_verification_key s keys tok.header.kid = some K)
    (hK : K ≠ "") (halg : tok.header.alg = s.algorithm)
    (hsig : tok.sigKey = K)
    (hiss : tok.payload.iss = s.jwt_issuer)
    (haud : tok.payload.aud = s.jwt_audience)
    (hsub : tok.payload.sub = some subVal) :
    ((∃ p, decode_access_token s keys t tok = .ok p) ↔
      (tok.payload.iat - s.jwt_leeway_seconds ≤ t ∧
       t ≤ tok.payload.exp + s.jwt_leeway_seconds)) ∧
    (∀ p, decode_access_token s keys t tok = .ok p → p.sub = some subVal) ∧
    (∀ s₂ p, decode_access_token s₂ keys t tok = .ok p →
      s₂.jwt_issuer = s.jwt_issuer ∧ s₂.jwt_audience = s.jwt_audience) := by
  have hdec := decode_encoded_token s keys t tok K hres hK halg hsig hiss
    haud (by simp [hsub])
  refine ⟨⟨?_, ?_⟩, ?_, ?_⟩
  · rintro ⟨p, hp⟩
    rw [hdec] at hp
    split_ifs at hp with h₁ h₂
    exact ⟨by omega, by omega⟩
  · rintro ⟨hlo, hhi⟩
    rw [hdec, if_neg (by omega), if_neg (by omega)]
    exact ⟨tok.payload, rfl⟩
  · intro p hp
    have hi := decode_ok_inversion s keys t tok p hp
    rw [hi.1, hsub]
  · intro s₂ p hp
    have hi := decode_ok_inversion s₂ keys t tok p hp
    exact ⟨by rw [← hi.2.2.2.2.2.1, hiss], by rw [← hi.2.2.2.2.2.2, haud]⟩

/-- C1: for a claim set with a sub, the token minted by
create_access_token under a well-formed key configuration decodes, under
the same configuration, to a payload with the same sub, succeeding exactly
when the decode time lies within [iat − leeway, exp + leeway]; and any
configuration under which the decode succeeds carries the issuer and
audience the token was minted with, so mismatched values fail. -/
theorem token_round_trip (s : Settings) (keys : List (String × String))
    (t₀ t : Int) (delta : Option Int) (subVal : String) (tok : Token)
    (hk : keyConfigOk s keys)
    (henc : create_access_token s keys t₀ (some subVal) delta = .ok tok) :
    tok.payload.sub = some subVal ∧
    ((∃ p, decode_access_token s keys t tok = .ok p) ↔
      (tok.payload.iat - s.jwt_leeway_seconds ≤ t ∧
       t ≤ tok.payload.exp + s.jwt_leeway_seconds)) ∧
    (∀ p, decode_access_token s keys t tok = .ok p → p.sub = some subVal) ∧
    (∀ s₂ p, decode_access_token s₂ keys t tok = .ok p →
      s₂.jwt_issuer = s.jwt_issuer ∧ s₂.jwt_audience = s.jwt_audience) := by
  rcases hk with ⟨hsym, hsec⟩ | ⟨hasym, kid, k, hkeys, hkne, hcase⟩
  · unfold create_access_token at henc
    rw [if_neg (by simp [hsym])] at henc
    cases henc
    refine ⟨rfl, round_trip_core s keys t _ s.secret_key subVal ?_ hsec
      rfl rfl rfl rfl rfl⟩
    simp [resolve_verification_key, hsym]
  · have hlookup : keys.lookup kid = some k := by
      rw [hkeys]
      simp [List.lookup]
    rcases hcase with hkid | ⟨hkidn, hkidne⟩
    · have hkne' : kid ≠ "" := (pyTruthy_eq_some hkid).2
      unfold create_access_token at henc
      rw [if_pos (by simp [hasym])] at henc
      simp only [hkid, Option.some_bind, hlookup] at henc
      simp only [if_neg hkne] at henc
      cases henc
      refine ⟨rfl, round_trip_core s keys t _ k subVal ?_ hkne
        rfl rfl rfl rfl rfl⟩
      simp only [resolve_verification_key,
        if_pos (by simp [hasym] : isAsymmetric s.algorithm = true)]
      simp [pyTruthy_some hkne', hlookup]
    · unfold create_access_token at henc
      rw [if_pos (by simp [hasym])] at henc
      have hhead : keys.head?.map Prod.fst = some kid := by rw [hkeys]; rfl
      simp only [hkidn, hhead, Option.some_bind, hlookup] at henc
      simp only [if_neg hkne] at henc
      cases henc
      refine ⟨rfl, round_trip_core s keys t _ k subVal ?_ hkne
        rfl rfl rfl rfl rfl⟩
      simp only [resolve_verification_key,
        if_pos (by simp [hasym] : isAsymmetric s.algorithm = true)]
      simp [pyTruthy, hkeys]

/-- C1 witness: the round trip evaluated at the sample configuration and a
decode time inside the validity window. -/
theorem token_round_trip_witness :
    sampleToken1.payload.sub = some "1" ∧
    (∃ p, decode_access_token sampleSettings [] 100 sampleToken1 = .ok p) :=
  have h := token_round_trip sampleSettings [] 0 100 (some 1800) "1"
    sampleToken1 (Or.inl ⟨rfl, by decide⟩) rfl
  ⟨h.1, h.2.1.mpr ⟨by decide, by decide⟩⟩

end CliporaAI
